import Mathlib

/-!
Verification of the combined analyzer telemetry service
(`Python_Prog/Single_Prog_ALL.py`) against its natural-language design
specification.

The Python program is shallowly embedded: floats are idealized as `ℚ`,
`None` becomes `Option`, per-iteration environment inputs (device reads,
clock readings, exception outcomes) are passed explicitly, and the
long-running threads are modelled as step functions over explicit state.
Each definition mirrors one Python function or loop body and is annotated
with the source symbol it embeds.
-/

namespace SingleProg

/-! ## Calibration evaluator (`read_expected_min_max`, `evaluate`) -/

/-- One entry of `AN1_RANGE_MAP` / `AN2_RANGE_MAP`:
`(measured_input_reg, measured_order, expected_reg, min_reg, max_reg, factor)`. -/
structure RangeEntry where
  inReg : Nat
  fmt : String
  expReg : Nat
  minReg : Nat
  maxReg : Nat
  factor : ℚ
deriving DecidableEq

/-- `AN1_RANGE_MAP` from the configuration section. -/
def AN1_RANGE_MAP : String → Option RangeEntry
  | "N2O" => some ⟨0, "ABCD", 124, 100, 102, 100⟩
  | "NO" => some ⟨2, "CDAB", 126, 104, 106, 101⟩
  | "O2" => some ⟨6, "ABCD", 128, 108, 110, 102⟩
  | _ => none

/-- `read_expected_min_max`: fetches expected/min/max through the range cache.
`holding reg` abstracts `read_holding_float_cached(reg, "CDAB")` — `none` when
the cached/live fetch fails.  The Python guard `if exp_reg` is falsy for a
zero register number, hence the `≠ 0` tests. -/
def read_expected_min_max (holding : Nat → Option ℚ) (e : RangeEntry) :
    Option ℚ × Option ℚ × Option ℚ :=
  ((if e.expReg ≠ 0 then holding e.expReg else none),
   (if e.minReg ≠ 0 then holding e.minReg else none),
   (if e.maxReg ≠ 0 then holding e.maxReg else none))

/-- Common tail of `evaluate` once non-`None` references are in hand:
`error = val - expected`,
`accuracy = (abs(error)/expected*factor) if expected not in (None,0) else abs(val)*factor`,
`status = "CAL OK" if min_r <= val <= max_r else "OUT OF CONTROL"`. -/
def evalWith (expected minR maxR val factor : ℚ) :
    Option ℚ × Option ℚ × Option ℚ × String :=
  let error := val - expected
  let accuracy := if expected ≠ 0 then |error| / expected * factor else |val| * factor
  let status := if minR ≤ val ∧ val ≤ maxR then "CAL OK" else "OUT OF CONTROL"
  (some expected, some error, some accuracy, status)

/-- `evaluate(tag, val, cal_name, range_map)`; the `range_map[tag]` entry is
passed as `e` and the reference-cache reads as `holding`.  The Python floats
`0.0`, `-0.2`, `0.2` of the `"N2O ZERO"` branch are idealized as rationals. -/
def evaluate (holding : Nat → Option ℚ) (e : RangeEntry) (val : ℚ)
    (calName : String) : Option ℚ × Option ℚ × Option ℚ × String :=
  if calName = "N2O ZERO" then
    evalWith 0 (-(1/5)) (1/5) val e.factor
  else
    match read_expected_min_max holding e with
    | (some expected, some minR, some maxR) => evalWith expected minR maxR val e.factor
    | _ => (none, none, none, "READ ERROR")

/-! ## Shared Modbus link (`SharedModbus._ensure`, `SharedModbus.read_*`) -/

/-- Mutable state of one `SharedModbus` link.  `clientExists` is
`self.client is not None`; `clientConnected` is the external pymodbus flag
`getattr(self.client, "connected", False)` (owned by the library, read by
`_ensure`); `lastFail` is `self.last_fail`.  Times are idealized rationals. -/
structure LinkState where
  clientExists : Bool
  clientConnected : Bool
  lastFail : ℚ
deriving DecidableEq

/-- Outcome of one attempted device read, as seen at the `try` block of
`read_discrete` / `read_input_regs` / `read_holding_regs`:
a successful response, an error response (`r.isError()`), or an I/O
exception raised by the client. -/
inductive ReadOutcome (α : Type) where
  | ok (vals : α)
  | err
  | exn
deriving DecidableEq

/-- Environment of a single read call: the clock value `time.time()`, the
result `self.client.connect()` would return if `_connect` runs, the device
outcome if a read is attempted, and the value of the library's `connected`
flag after an I/O exception (the code itself never writes it; pymodbus may
or may not close the socket on the error). -/
structure ReadEnv (α : Type) where
  now : ℚ
  connectOk : Bool
  outcome : ReadOutcome α
  connAfterExn : Bool

/-- The shared `try` body of the three read methods: a success returns the
values, an error response returns `None`, and an exception sets
`self.last_fail = time.time()` and returns `None`. -/
def attemptRead (s : LinkState) (e : ReadEnv α) : LinkState × Option α :=
  match e.outcome with
  | .ok vals => (s, some vals)
  | .err => (s, none)
  | .exn => ({ s with lastFail := e.now, clientConnected := e.connAfterExn }, none)

/-- One call to `SharedModbus.read_discrete` (identically structured to
`read_input_regs` and `read_holding_regs`), inlining `_ensure` and
`_connect`.  The third component records whether `_connect` was invoked.
A successful `_connect` leaves a client object whose `connected` flag is
the connect result. -/
def sharedRead (s : LinkState) (e : ReadEnv α) : LinkState × Option α × Bool :=
  if s.clientExists && s.clientConnected then
    let r := attemptRead s e
    (r.1, r.2, false)
  else if e.now - s.lastFail < 3/2 then
    (s, none, false)
  else
    let s₁ : LinkState := ⟨true, e.connectOk, s.lastFail⟩
    if e.connectOk then
      let r := attemptRead s₁ e
      (r.1, r.2, true)
    else
      ({ s₁ with lastFail := e.now }, none, true)

/-! ## Range cache (`RangeCache.get_float_holding`) -/

/-- `RANGE_ADDR_OFFSET` from the configuration section. -/
def RANGE_ADDR_OFFSET : Nat := 0

/-- The cache dictionary `self.cache`: key `(addr, order)` to
`(timestamp, value)`. -/
abbrev CacheMap := (Nat × String) → Option (ℚ × ℚ)

/-- The key computation of `get_float_holding`:
`addr = reg - RANGE_ADDR_OFFSET if RANGE_ADDR_OFFSET else reg`. -/
def cacheKey (reg : Nat) (order : String) : Nat × String :=
  (if RANGE_ADDR_OFFSET ≠ 0 then reg - RANGE_ADDR_OFFSET else reg, order)

/-- The live-read tail of `get_float_holding`.  `deviceRead` abstracts
`MB_RANGE.read_holding_regs(addr, 2)` followed by `decode_float`: it is
`none` exactly when the read failed or returned fewer than two registers.
On success the decoded value is stored under the key with the timestamp
taken at the start of the call.  The boolean reports that a device read
was performed. -/
def cacheLiveFetch (cache : CacheMap) (key : Nat × String) (now : ℚ)
    (deviceRead : Option ℚ) : CacheMap × Option ℚ × Bool :=
  match deviceRead with
  | none => (cache, none, true)
  | some val => ((fun k => if k = key then some (now, val) else cache k), some val, true)

/-- `RangeCache.get_float_holding(reg, order)`: a cached entry younger than
`ttl` is returned directly; otherwise (miss or stale) the live read runs. -/
def get_float_holding (ttl : ℚ) (cache : CacheMap) (reg : Nat) (order : String)
    (now : ℚ) (deviceRead : Option ℚ) : CacheMap × Option ℚ × Bool :=
  let key := cacheKey reg order
  match cache key with
  | some (ts, val) =>
    if now - ts ≤ ttl then (cache, some val, false)
    else cacheLiveFetch cache key now deviceRead
  | none => cacheLiveFetch cache key now deviceRead

/-! ## Historian (`Historian._is_calibration`, `Historian._level_mode`,
`Historian._invalid_min_only`, `Historian.run`) -/

/-- The fixed trigger list of `_is_calibration`:
`[(1201, "N2O ZERO"), (1202, "N2O SPAN"), (1203, "NO SPAN"), (1204, "O2 SPAN")]`,
names only; `bits` below is positionally the `read_bit_status` results for
addresses 1201..1204 (`none` = read failure, which Python treats as falsy). -/
def calModes : List String := ["N2O ZERO", "N2O SPAN", "NO SPAN", "O2 SPAN"]

/-- The `active` list built by `_is_calibration`: names whose trigger bit
read `True`. -/
def activeCals (bits : List (Option Bool)) : List String :=
  (calModes.zip bits).filterMap fun p => if p.2 = some true then some p.1 else none

/-- `Historian._is_calibration`: `(active[0], 1)` when any trigger bit is
active, else `("ANALYZER IDLE", 0)`. -/
def isCalibration (bits : List (Option Bool)) : String × Nat :=
  match activeCals bits with
  | [] => ("ANALYZER IDLE", 0)
  | m :: _ => (m, 1)

/-- `Historian._level_mode`: first truthy of the DI bits 3/4/5, positionally
`bits = [LOW, MID, HIGH]`. -/
def levelModeOf (bits : List (Option Bool)) : String :=
  match (["LOW LEVEL", "MID LEVEL", "HIGH LEVEL"].zip bits).find?
      (fun p => p.2 = some true) with
  | some p => p.1
  | none => "LEVEL IDLE"

/-- `plant_status`: `read_flow()` always returns a float (0.0 on failure),
so the `is not None` guard is dropped; `FLOW_STOP_THRESHOLD = 100.0`. -/
def plant_status (flow : ℚ) : String :=
  if flow ≥ 100 then "PLANT RUNNING" else "PLANT STOP"

/-- The padding/truncation idiom `(xs + [None]*n)[:n]` used both for
`new_vals` (to `val_count`) and for `vals_for_sql` (to 5). -/
def padTruncate (xs : List (Option ℚ)) (n : Nat) : List (Option ℚ) :=
  (xs ++ List.replicate n none).take n

/-- `Historian._invalid_min_only`: a value strictly below its configured
minimum flags the sample invalid.  `mins` is positional: entry `i` is the
cached minimum for channel `i+1` (`none` when `min_map` has no entry for
that index or the cached read failed — both skipped by the code).  A `none`
value paired with a present minimum would raise `TypeError` in Python; the
configured register maps always yield `val_count` floats, so that case is
unreachable and modelled as not-invalid. -/
def invalidMinOnly (values : List (Option ℚ)) (mins : List (Option ℚ)) : Bool :=
  (values.zip mins).any fun p =>
    match p.1, p.2 with
    | some v, some mn => decide (v < mn)
    | _, _ => false

/-- The row inserted into the `Value` table each tick (the `DATE` column,
supplied by the wall clock, is omitted). -/
structure HistRecord where
  vals : List (Option ℚ)
  flow : ℚ
  analyzerMode : String
  levelMode : String
  isCal : Nat
  plantStatus : String
deriving DecidableEq

/-- One iteration of `Historian.run`'s while-loop body.  Inputs are the per
tick environment: calibration trigger bits, level DI bits, the flow reading,
the live block read (`read_block_input` result; `none` = offline) and the
positional cached channel minima.  Returns the updated `last_good` and the
emitted record. -/
def histTick (valCount : Nat) (lastGood : List (Option ℚ))
    (calBits levelBits : List (Option Bool)) (flow : ℚ)
    (liveVals : Option (List ℚ)) (mins : List (Option ℚ)) :
    List (Option ℚ) × HistRecord :=
  let pstat := plant_status flow
  let mode0 := isCalibration calBits
  let lvlMode := levelModeOf levelBits
  match liveVals with
  | none =>
    (lastGood,
     { vals := padTruncate lastGood 5, flow := flow,
       analyzerMode := "ANALYZER OFFLINE", levelMode := lvlMode,
       isCal := 0, plantStatus := pstat })
  | some vs =>
    let newVals := padTruncate (vs.map some) valCount
    if mode0.1 = "ANALYZER IDLE" then
      if invalidMinOnly newVals mins then
        (lastGood,
         { vals := padTruncate newVals 5, flow := flow,
           analyzerMode := "ANALYZER INVALID", levelMode := lvlMode,
           isCal := mode0.2, plantStatus := pstat })
      else
        (newVals,
         { vals := padTruncate newVals 5, flow := flow,
           analyzerMode := mode0.1, levelMode := lvlMode,
           isCal := mode0.2, plantStatus := pstat })
    else
      (lastGood,
       { vals := padTruncate lastGood 5, flow := flow,
         analyzerMode := mode0.1, levelMode := lvlMode,
         isCal := mode0.2, plantStatus := pstat })

/-! ## Level capture sessions (`level_capture_worker`, `LevelMonitor.run`) -/

/-- `str.upper()` for the ASCII level keys used here. -/
def upperCase (s : String) : String := String.mk (s.toList.map Char.toUpper)

/-- `str.title()` for the single-word level keys used here
(`"LOW"`, `"MID"`, `"HIGH"`). -/
def titleCase (s : String) : String :=
  match s.toList with
  | [] => ""
  | c :: cs => String.mk (c.toUpper :: cs.map Char.toLower)

/-- `AN1_ACTUAL_REF` from the configuration section: `LOW` is explicitly
`None`; a missing key also yields `None` via `.get`. -/
def AN1_ACTUAL_REF : String → Option Nat
  | "MID" => some 111
  | "HIGH" => some 123
  | _ => none

/-- `AN2_LEVEL_REF` from the configuration section:
`(expected_reg, order)` per level key. -/
def AN2_LEVEL_REF : String → Option (Nat × String)
  | "LOW" => some (130, "CDAB")
  | "MID" => some (132, "CDAB")
  | "HIGH" => some (130, "CDAB")
  | _ => none

/-- The actual-reference resolution of `level_capture_worker`.  `holding reg`
abstracts `read_holding_float_cached(reg, "CDAB")`; every `None` — missing
configuration or failed read — falls back to `0.0`. -/
def levelActualVal (mode levelKey : String) (holding : Nat → Option ℚ) : ℚ :=
  if mode = "AN1_LEGACY" then
    match AN1_ACTUAL_REF (upperCase levelKey) with
    | none => 0
    | some reg => (holding reg).getD 0
  else
    match AN2_LEVEL_REF (upperCase levelKey) with
    | some cfg => (holding cfg.1).getD 0
    | none => 0

/-- One row of the `LevelCapture` table (the `Timestamp` column, supplied by
the wall clock, is omitted). -/
structure LevelRow where
  levelName : String
  valueType : String
  value : ℚ
deriving DecidableEq

/-- `level_capture_worker` after the rising edge: `reads` is positionally
the result of `read_input_float(mb_an, 0, "ABCD")` taken after each of the
three `LEVEL_DELAYS` sleeps (`none` = failed read, logged and skipped).
Sample rows are enqueued as read; with no successful reading the worker
exits early; otherwise it appends the average, actual-reference, error and
percent-error rows, the latter guarded to `0.0` when the actual is zero. -/
def level_capture_worker (mode levelKey : String) (reads : List (Option ℚ))
    (holding : Nat → Option ℚ) : List LevelRow :=
  let levelName := titleCase levelKey ++ " Level"
  let valRows := reads.enum.filterMap fun p =>
    p.2.map fun x => LevelRow.mk levelName ("Val " ++ toString (p.1 + 1)) x
  let vals := reads.filterMap id
  match vals with
  | [] => valRows
  | _ :: _ =>
    let avg := vals.sum / (vals.length : ℚ)
    let actual := levelActualVal mode levelKey holding
    let err := avg - actual
    let pct := if actual ≠ 0 then err / actual * 100 else 0
    valRows ++
      [⟨levelName, "Avg", avg⟩, ⟨levelName, "Actual", actual⟩,
       ⟨levelName, "Error", err⟩, ⟨levelName, "% Error", pct⟩]

/-- A level capture session with the environment's trigger trajectory made
explicit: `trig n` is what `read_bit_status` would return at the n-th poll
instant after the session began.  The Python worker never performs that
read, so the produced rows do not depend on `trig`. -/
def levelSessionRows (trig : Nat → Option Bool) (mode levelKey : String)
    (reads : List (Option ℚ)) (holding : Nat → Option ℚ) : List LevelRow :=
  level_capture_worker mode levelKey reads holding

/-! ## Calibration capture sessions (`CalWorker.run`) -/

/-- Python truthiness of a `read_bit_status` result: `None` (read failure)
and `False` are both falsy. -/
def truthy : Option Bool → Bool
  | some b => b
  | none => false

/-- Environment of one capture iteration of `CalWorker.run`: the trigger
read, the per-tag measured reads (`read_measured`), and the reference
holding-register reads used by `evaluate`. -/
structure CalTick where
  trig : Option Bool
  measured : String → Option ℚ
  holding : Nat → Option ℚ

/-- One row of the `CAL` table (the `DATE` column omitted). -/
structure CalRow where
  calName : String
  tag : String
  val : ℚ
  expected : Option ℚ
  error : Option ℚ
  accuracy : Option ℚ
  status : String
deriving DecidableEq

/-- The per-iteration body of `CalWorker.run`'s capture loop: one row per
configured tag whose measured read succeeds. -/
def calTickRows (rangeMap : String → Option RangeEntry) (calName : String)
    (tags : List String) (t : CalTick) : List CalRow :=
  tags.filterMap fun tag =>
    match rangeMap tag with
    | none => none
    | some e =>
      match t.measured tag with
      | none => none
      | some v =>
        let r := evaluate t.holding e v calName
        some ⟨calName, tag, v, r.1, r.2.1, r.2.2.1, r.2.2.2⟩

/-- The capture loop of `CalWorker.run` after the stabilization delay: each
iteration first reads the trigger and breaks when it is not truthy,
otherwise records the tick's rows and continues.  The list of ticks is the
session's environment trace; its end models shutdown. -/
def calWorkerRows (rangeMap : String → Option RangeEntry) (calName : String)
    (tags : List String) : List CalTick → List CalRow
  | [] => []
  | t :: rest =>
    if truthy t.trig then
      calTickRows rangeMap calName tags t ++ calWorkerRows rangeMap calName tags rest
    else []

/-! ## Edge-triggered monitors (`CalMonitor.run`, `LevelMonitor.run`) -/

/-- Per-address state of `CalMonitor` plus a ghost session counter:
`last` is `self.last[addr]`, `sessionAlive` is
`workers.get(addr) and workers[addr].is_alive()`, and `sessions` counts the
CalWorker threads currently running for this address (not a program
variable; tracked to state the at-most-one-session invariant). -/
structure CalTrigState where
  last : Bool
  sessionAlive : Bool
  sessions : Nat
deriving DecidableEq

/-- One `CalMonitor.run` poll of a single address: on `None` the iteration
is skipped (`last` not updated); otherwise a rising edge spawns a worker
only when no stored worker is alive.  Returns the new state and whether a
worker was spawned. -/
def calMonPoll (s : CalTrigState) (st : Option Bool) : CalTrigState × Bool :=
  match st with
  | none => (s, false)
  | some b =>
    let spawn := b && !s.last && !s.sessionAlive
    (⟨b, s.sessionAlive || spawn,
      if spawn then s.sessions + 1 else s.sessions⟩, spawn)

/-- Events touching one address's calibration-capture state: a monitor poll,
or the termination of the running CalWorker thread. -/
inductive CalEvent where
  | poll (st : Option Bool)
  | workerDone
deriving DecidableEq

/-- Interleaved small-step semantics for one address of `CalMonitor`. -/
def calStep (s : CalTrigState) : CalEvent → CalTrigState
  | .poll st => (calMonPoll s st).1
  | .workerDone => ⟨s.last, false, s.sessions - 1⟩

/-- Initial per-address state: `self.last = {k: False ...}`, no workers. -/
def initCalTrig : CalTrigState := ⟨false, false, 0⟩

/-- Per-key state of `LevelMonitor` plus the ghost session counter.  The
Python class keeps no reference to spawned `level_capture_worker` threads. -/
structure LvlTrigState where
  last : Bool
  sessions : Nat
deriving DecidableEq

/-- One `LevelMonitor.run` poll of a single level key: a rising edge spawns
a capture thread unconditionally — there is no aliveness check. -/
def lvlMonPoll (s : LvlTrigState) (st : Option Bool) : LvlTrigState × Bool :=
  match st with
  | none => (s, false)
  | some b =>
    let spawn := b && !s.last
    (⟨b, if spawn then s.sessions + 1 else s.sessions⟩, spawn)

/-- Events touching one key's level-capture state. -/
inductive LvlEvent where
  | poll (st : Option Bool)
  | workerDone
deriving DecidableEq

/-- Interleaved small-step semantics for one key of `LevelMonitor`. -/
def lvlStep (s : LvlTrigState) : LvlEvent → LvlTrigState
  | .poll st => (lvlMonPoll s st).1
  | .workerDone => ⟨s.last, s.sessions - 1⟩

/-- Initial per-key state. -/
def initLvlTrig : LvlTrigState := ⟨false, 0⟩

/-- The at-most-one-session invariant for a calibration trigger address:
the ghost counter agrees with the monitor's aliveness view. -/
def calSessionInv (s : CalTrigState) : Prop :=
  s.sessions = if s.sessionAlive then 1 else 0

/-! ## Persistence consumer (`SQLWriter.run`) -/

/-- Outcome of executing a batch against the sink: success, a `pyodbc.Error`
(the sink-failure path), or any other exception. -/
inductive SqlOutcome where
  | ok
  | dbErr
  | otherErr
deriving DecidableEq

/-- Result of one iteration of `SQLWriter.run`'s while-loop: whether a sink
connection exists afterwards, the items left on the queue, the batch
committed this iteration (if any), and the back-off sleep in seconds. -/
structure WriterResult (α : Type) where
  conn : Bool
  queue : List α
  committed : Option (List α)
  sleepSecs : ℚ
deriving DecidableEq

/-- One iteration of `SQLWriter.run`.  `conn` is whether `self.conn` exists;
`connectOk` is whether `sql_connect()` would succeed if attempted (a failure
raises `pyodbc.Error`, caught by the reconnect handler with its 5 s sleep).
`q` is the queue snapshot: the blocking `get` takes the first item and the
non-blocking drain takes up to 299 more, so the batch is `q.take 300` and
`q.drop 300` remains; an empty queue is the `queue.Empty` continue.  On
success the whole batch is executed and committed; on `pyodbc.Error` the
connection is closed and dropped and the consumer sleeps 5 s — the drained
items are not re-queued; on any other exception it sleeps 1 s.  Queue items
are opaque (`α`). -/
def sqlWriterIter {α : Type} (conn connectOk : Bool) (q : List α)
    (outcome : SqlOutcome) : WriterResult α :=
  if !conn && !connectOk then
    ⟨false, q, none, 5⟩
  else
    match q with
    | [] => ⟨true, [], none, 0⟩
    | _ :: _ =>
      match outcome with
      | .ok => ⟨true, q.drop 300, some (q.take 300), 0⟩
      | .dbErr => ⟨false, q.drop 300, none, 5⟩
      | .otherErr => ⟨true, q.drop 300, none, 1⟩

end SingleProg

namespace SingleProg

/-- `(xs + [None]*n)[:n]` is the identity on lists of length `n`. -/
theorem padTruncate_of_length (xs : List (Option ℚ)) (n : Nat) (h : xs.length = n) :
    padTruncate xs n = xs := by
  subst h
  simp [padTruncate, List.take_left]

/-- Every name produced by `activeCals` is one of the four configured
calibration names. -/
theorem activeCals_mem_calModes (bits : List (Option Bool)) (m : String)
    (hm : m ∈ activeCals bits) : m ∈ calModes := by
  obtain ⟨p, hp, hpm⟩ := List.mem_filterMap.1 hm
  have : p.1 ∈ calModes := (List.of_mem_zip hp).1
  by_cases hb : p.2 = some true
  · rw [if_pos hb] at hpm
    cases hpm
    exact this
  · rw [if_neg hb] at hpm
    cases hpm

/-- If `_is_calibration` reports idle then it reports `is_cal = 0`. -/
theorem isCalibration_idle (bits : List (Option Bool))
    (h : (isCalibration bits).1 = "ANALYZER IDLE") :
    isCalibration bits = ("ANALYZER IDLE", 0) := by
  cases ha : activeCals bits with
  | nil => simp [isCalibration, ha]
  | cons m ms =>
    exfalso
    have hm : m ∈ calModes :=
      activeCals_mem_calModes bits m (by rw [ha]; exact List.mem_cons_self m ms)
    have h1 : m = "ANALYZER IDLE" := by
      simpa [isCalibration, ha] using h
    rw [h1] at hm
    exact absurd hm (by decide)

/-- Claim C5: whenever the reference values are available — either the fixed
zero-calibration constants or three successful reference reads — `evaluate`
returns error `val - expected`, the guarded accuracy (fallback
`|val| * factor` exactly when `expected = 0`, so the division is never taken
with a zero denominator), and status `"CAL OK"` precisely when
`minR ≤ val ≤ maxR`. -/
theorem evaluate_formulas (holding : Nat → Option ℚ) (e : RangeEntry) (val : ℚ)
    (calName : String) (expected minR maxR : ℚ)
    (h : (calName = "N2O ZERO" ∧ expected = 0 ∧ minR = -(1/5) ∧ maxR = 1/5) ∨
         (calName ≠ "N2O ZERO" ∧
          read_expected_min_max holding e = (some expected, some minR, some maxR))) :
    evaluate holding e val calName =
      (some expected, some (val - expected),
       some (if expected = 0 then |val| * e.factor
             else |val - expected| / expected * e.factor),
       if minR ≤ val ∧ val ≤ maxR then "CAL OK" else "OUT OF CONTROL") := by
  rcases h with ⟨hz, he, hmn, hmx⟩ | ⟨hz, hr⟩
  · subst hz; subst he; subst hmn; subst hmx
    simp only [evaluate, if_pos rfl, evalWith]
    norm_num
  · simp only [evaluate, if_neg hz, hr, evalWith]
    by_cases h0 : expected = 0
    · simp [h0]
    · simp [h0]

/-- Witness for `evaluate_formulas`: the zero calibration at `val = 1/10`
with unavailable references still evaluates by the fixed constants. -/
theorem evaluate_formulas_witness :
    evaluate (fun _ => none) ⟨0, "ABCD", 124, 100, 102, 100⟩ (1/10) "N2O ZERO" =
      (some 0, some (1/10 - 0),
       some (if (0 : ℚ) = 0 then |(1/10 : ℚ)| * 100
             else |(1/10 : ℚ) - 0| / 0 * 100),
       if -(1/5 : ℚ) ≤ 1/10 ∧ (1/10 : ℚ) ≤ 1/5 then "CAL OK" else "OUT OF CONTROL") :=
  evaluate_formulas (fun _ => none) ⟨0, "ABCD", 124, 100, 102, 100⟩ (1/10) "N2O ZERO"
    0 (-(1/5)) (1/5) (Or.inl ⟨rfl, rfl, rfl, rfl⟩)

/-- Claim C6: for a non-zero calibration kind a missing expected/min/max reference
makes `evaluate` return the `"READ ERROR"` status with all numeric outputs
`none` (the embedding is a total function, so no exception escapes), while
the `"N2O ZERO"` kind can never produce `"READ ERROR"`. -/
theorem evaluate_reference_miss (holding : Nat → Option ℚ) (e : RangeEntry)
    (val : ℚ) (calName : String) :
    ((calName ≠ "N2O ZERO" →
      ((read_expected_min_max holding e).1 = none ∨
       (read_expected_min_max holding e).2.1 = none ∨
       (read_expected_min_max holding e).2.2 = none) →
      evaluate holding e val calName = (none, none, none, "READ ERROR")))
    ∧ (evaluate holding e val "N2O ZERO").2.2.2 ≠ "READ ERROR" := by
  constructor
  · intro hz hmiss
    rcases hr : read_expected_min_max holding e with ⟨a, b, c⟩
    rw [hr] at hmiss
    simp only [evaluate, if_neg hz, hr]
    rcases a with _ | a <;> rcases b with _ | b <;> rcases c with _ | c <;> simp_all
  · simp only [evaluate, evalWith]
    split
    · split <;> split <;> simp
    · simp_all

/-- Witness for `evaluate_reference_miss`: with every reference read failing,
the span calibration of channel `NO` reports a read error, and the zero
calibration never does. -/
theorem evaluate_reference_miss_witness :
    evaluate (fun _ => none) ⟨2, "CDAB", 126, 104, 106, 101⟩ 3 "NO SPAN" =
      (none, none, none, "READ ERROR")
    ∧ (evaluate (fun _ => none) ⟨2, "CDAB", 126, 104, 106, 101⟩ 3 "N2O ZERO").2.2.2 ≠
      "READ ERROR" :=
  ⟨(evaluate_reference_miss (fun _ => none) ⟨2, "CDAB", 126, 104, 106, 101⟩ 3 "NO SPAN").1
      (by decide) (Or.inl (by decide)),
   (evaluate_reference_miss (fun _ => none) ⟨2, "CDAB", 126, 104, 106, 101⟩ 3 "NO SPAN").2⟩

/-- Claim C7, amended: (a) while no live client connection is reported and the
last failure is younger than the ≈1.5 s cool-down, a read fails fast:
no connect attempt, no state change, failure result; (b) after a call whose
connection attempt failed, any call within 1.5 s of it again fails fast
without attempting a reconnection; (c) an I/O exception during a read
records the failure time and returns the failure result — the code leaves
the connection flag to whatever the external client reports, it does not
itself invalidate the connection.  The embedding is a total function:
every call returns either values or the failure result. -/
theorem sharedRead_backoff (s : LinkState) (e e' : ReadEnv (List Bool)) :
    ((s.clientExists && s.clientConnected) = false → e.now - s.lastFail < 3/2 →
      sharedRead s e = (s, none, false))
    ∧ ((s.clientExists && s.clientConnected) = false → ¬(e.now - s.lastFail < 3/2) →
      e.connectOk = false → e'.now - e.now < 3/2 →
      sharedRead (sharedRead s e).1 e' = ((sharedRead s e).1, none, false))
    ∧ ((s.clientExists && s.clientConnected) = true → e.outcome = .exn →
      sharedRead s e =
        ({ s with lastFail := e.now, clientConnected := e.connAfterExn }, none, false)) := by
  refine ⟨?_, ?_, ?_⟩
  · intro h1 h2
    simp [sharedRead, h1, h2]
  · intro h1 h2 h3 h4
    have hs : (sharedRead s e).1 = ⟨true, false, e.now⟩ := by
      simp [sharedRead, h1, h2, h3]
    rw [hs]
    simp [sharedRead, h4]
  · intro h1 h2
    simp [sharedRead, h1, attemptRead, h2]

/-- Witness for `sharedRead_backoff`: a link with no client and a failure
0.1 s ago fails fast; the exception clause applies on a connected link. -/
theorem sharedRead_backoff_witness :
    sharedRead (⟨false, false, 0⟩ : LinkState)
        (⟨1, true, .ok [true], true⟩ : ReadEnv (List Bool)) =
      (⟨false, false, 0⟩, none, false)
    ∧ sharedRead (⟨true, true, 0⟩ : LinkState)
        (⟨7, true, .exn, false⟩ : ReadEnv (List Bool)) =
      (⟨true, false, 7⟩, none, false) :=
  ⟨(sharedRead_backoff ⟨false, false, 0⟩ ⟨1, true, .ok [true], true⟩
      ⟨1, true, .ok [true], true⟩).1 (by decide) (by norm_num),
   (sharedRead_backoff ⟨true, true, 0⟩ ⟨7, true, .exn, false⟩
      ⟨7, true, .exn, false⟩).2.2 (by decide) rfl⟩

/-- Counterexample to claim C7: an I/O exception on a live connection, after which the
external client still reports itself connected, does not force the next call
to reconnect: the next call invokes no `_connect` and reads over the same
connection.  The claim that an exception "immediately invalidates the
connection state so that the next call forces a reconnect" is false of the
code, which only records `last_fail`. -/
theorem sharedRead_exn_no_forced_reconnect :
    sharedRead (⟨true, true, 0⟩ : LinkState)
        (⟨10, true, .exn, true⟩ : ReadEnv (List Bool)) =
      (⟨true, true, 10⟩, none, false)
    ∧ sharedRead (⟨true, true, 10⟩ : LinkState)
        (⟨11, true, .ok [true], true⟩ : ReadEnv (List Bool)) =
      (⟨true, true, 10⟩, some [true], false) := by
  constructor <;> rfl

/-- Claim C8: (1) a cache entry no older than `ttl` is returned as-is with no
device read; (2) on a miss or stale entry a live read runs: a success is
stored under the key with the call's timestamp and returned, a failure
returns `none` and leaves the cache mapping pointwise unchanged; (3) every
returned value is backed by a post-call cache entry whose age is within
`ttl`. -/
theorem range_cache_policy (ttl : ℚ) (cache : CacheMap) (reg : Nat) (order : String)
    (now : ℚ) (dev : Option ℚ) (httl : 0 ≤ ttl) :
    (∀ ts val, cache (cacheKey reg order) = some (ts, val) → now - ts ≤ ttl →
      get_float_holding ttl cache reg order now dev = (cache, some val, false))
    ∧ ((cache (cacheKey reg order) = none ∨
        (∃ ts val, cache (cacheKey reg order) = some (ts, val) ∧ ¬(now - ts ≤ ttl))) →
       ((dev = none → get_float_holding ttl cache reg order now dev = (cache, none, true))
        ∧ (∀ v, dev = some v →
            (get_float_holding ttl cache reg order now dev).2.1 = some v
            ∧ (get_float_holding ttl cache reg order now dev).2.2 = true
            ∧ (get_float_holding ttl cache reg order now dev).1 (cacheKey reg order) =
                some (now, v)
            ∧ ∀ k, k ≠ cacheKey reg order →
                (get_float_holding ttl cache reg order now dev).1 k = cache k)))
    ∧ (∀ v, (get_float_holding ttl cache reg order now dev).2.1 = some v →
        ∃ ts, (get_float_holding ttl cache reg order now dev).1 (cacheKey reg order) =
            some (ts, v) ∧ now - ts ≤ ttl) := by
  refine ⟨?_, ?_, ?_⟩
  · intro ts val h hfresh
    simp [get_float_holding, h, hfresh]
  · intro hmiss
    constructor
    · intro hdev
      rcases hmiss with hnone | ⟨ts, val, hsome, hstale⟩
      · simp [get_float_holding, hnone, cacheLiveFetch, hdev]
      · simp [get_float_holding, hsome, hstale, cacheLiveFetch, hdev]
    · intro v hdev
      have hr : get_float_holding ttl cache reg order now dev =
          ((fun k => if k = cacheKey reg order then some (now, v) else cache k),
           some v, true) := by
        rcases hmiss with hnone | ⟨ts, val, hsome, hstale⟩
        · simp [get_float_holding, hnone, cacheLiveFetch, hdev]
        · simp [get_float_holding, hsome, hstale, cacheLiveFetch, hdev]
      rw [hr]
      refine ⟨rfl, rfl, by simp, ?_⟩
      intro k hk
      simp [hk]
  · intro v hv
    rcases hc : cache (cacheKey reg order) with _ | ⟨ts, val⟩
    · rcases hd : dev with _ | w
      · rw [get_float_holding] at hv
        simp [hc, cacheLiveFetch, hd] at hv
      · rw [get_float_holding] at hv ⊢
        simp only [hc, cacheLiveFetch, hd] at hv ⊢
        simp at hv
        subst hv
        exact ⟨now, by simp, by linarith⟩
    · by_cases hf : now - ts ≤ ttl
      · rw [get_float_holding] at hv ⊢
        simp only [hc, if_pos hf] at hv ⊢
        simp at hv
        subst hv
        exact ⟨ts, by simp [hc], hf⟩
      · rcases hd : dev with _ | w
        · rw [get_float_holding] at hv
          simp [hc, cacheLiveFetch, hd] at hv
          rw [if_neg (fun h => hf (by linarith))] at hv
          simp at hv
        · rw [get_float_holding] at hv ⊢
          simp only [hc, if_neg hf, cacheLiveFetch, hd] at hv ⊢
          simp at hv
          subst hv
          exact ⟨now, by simp, by linarith⟩

/-- Witness for `range_cache_policy`: a 3 s old entry for register 124 is
served from the cache with no device read. -/
theorem range_cache_policy_witness :
    get_float_holding 5
        (fun k => if k = (124, "CDAB") then some (0, 7) else none)
        124 "CDAB" 3 none =
      ((fun k => if k = (124, "CDAB") then some (0, 7) else none), some 7, false) :=
  (range_cache_policy 5 (fun k => if k = (124, "CDAB") then some (0, 7) else none)
      124 "CDAB" 3 none (by norm_num)).1 0 7 (by decide) (by norm_num)

/-- Claim C2: on a Historian tick, `last_good` becomes exactly the values just
read precisely in the branch where the live read succeeded, no calibration
trigger is active, and no channel is below its minimum; in every other
branch — OFFLINE, calibration freeze, INVALID — `last_good` is unchanged,
and the OFFLINE and calibration branches emit the unchanged last-known-good
values. -/
theorem historian_last_good_policy (valCount : Nat) (lastGood : List (Option ℚ))
    (calBits levelBits : List (Option Bool)) (flow : ℚ)
    (liveVals : Option (List ℚ)) (mins : List (Option ℚ))
    (hlen : ∀ vs, liveVals = some vs → vs.length = valCount) :
    (∀ vs, liveVals = some vs → (isCalibration calBits).1 = "ANALYZER IDLE" →
      invalidMinOnly (vs.map some) mins = false →
      histTick valCount lastGood calBits levelBits flow liveVals mins =
        (vs.map some,
         ⟨padTruncate (vs.map some) 5, flow, "ANALYZER IDLE",
          levelModeOf levelBits, 0, plant_status flow⟩))
    ∧ (liveVals = none →
      histTick valCount lastGood calBits levelBits flow liveVals mins =
        (lastGood,
         ⟨padTruncate lastGood 5, flow, "ANALYZER OFFLINE",
          levelModeOf levelBits, 0, plant_status flow⟩))
    ∧ (∀ vs, liveVals = some vs → (isCalibration calBits).1 ≠ "ANALYZER IDLE" →
      histTick valCount lastGood calBits levelBits flow liveVals mins =
        (lastGood,
         ⟨padTruncate lastGood 5, flow, (isCalibration calBits).1,
          levelModeOf levelBits, (isCalibration calBits).2, plant_status flow⟩))
    ∧ (∀ vs, liveVals = some vs → (isCalibration calBits).1 = "ANALYZER IDLE" →
      invalidMinOnly (vs.map some) mins = true →
      histTick valCount lastGood calBits levelBits flow liveVals mins =
        (lastGood,
         ⟨padTruncate (vs.map some) 5, flow, "ANALYZER INVALID",
          levelModeOf levelBits, 0, plant_status flow⟩)) := by
  refine ⟨?_, ?_, ?_, ?_⟩
  · intro vs hv hidle hinv
    subst hv
    have hpt : padTruncate (vs.map some) valCount = vs.map some :=
      padTruncate_of_length _ _ (by simp [hlen vs rfl])
    have hic := isCalibration_idle calBits hidle
    simp [histTick, hpt, hic, hinv]
  · intro hv
    subst hv
    simp [histTick]
  · intro vs hv hne
    subst hv
    simp [histTick, hne]
  · intro vs hv hidle hinv
    subst hv
    have hpt : padTruncate (vs.map some) valCount = vs.map some :=
      padTruncate_of_length _ _ (by simp [hlen vs rfl])
    have hic := isCalibration_idle calBits hidle
    simp [histTick, hpt, hic, hinv]

/-- Witness for `historian_last_good_policy`: an idle, online, valid tick
adopts the freshly read values as the new last-known-good. -/
theorem historian_last_good_policy_witness :
    histTick 2 [some 9, some 9] [some false, some false, some false, some false]
        [] 0 (some [5, 6]) [none, none] =
      (([5, 6] : List ℚ).map some,
       ⟨padTruncate (([5, 6] : List ℚ).map some) 5, 0, "ANALYZER IDLE",
        levelModeOf [], 0, plant_status 0⟩) :=
  (historian_last_good_policy 2 [some 9, some 9]
      [some false, some false, some false, some false] [] 0 (some [5, 6]) [none, none]
      (fun vs h => by cases h; rfl)).1 [5, 6] rfl (by decide) (by decide)

/-- Claim C4, amended: on a tick where at least one calibration trigger bit reads
true and the live read succeeds, the emitted record carries the first active
calibration's name, `IsCalibration = 1`, and channel values frozen to
last-known-good (the live values read on that tick are not emitted and
`last_good` is unchanged).  When the live read fails, the OFFLINE branch
overrides the calibration mode instead. -/
theorem historian_calibration_freeze (valCount : Nat) (lastGood : List (Option ℚ))
    (calBits levelBits : List (Option Bool)) (flow : ℚ) (vs : List ℚ)
    (mins : List (Option ℚ)) (m : String) (ms : List String)
    (hact : activeCals calBits = m :: ms) :
    histTick valCount lastGood calBits levelBits flow (some vs) mins =
      (lastGood,
       ⟨padTruncate lastGood 5, flow, m, levelModeOf levelBits, 1,
        plant_status flow⟩) := by
  have hm : m ∈ calModes :=
    activeCals_mem_calModes calBits m (by rw [hact]; exact List.mem_cons_self m ms)
  have hic : isCalibration calBits = (m, 1) := by simp [isCalibration, hact]
  have hne : m ≠ "ANALYZER IDLE" := by
    intro h
    rw [h] at hm
    exact absurd hm (by decide)
  simp [histTick, hic, hne]

/-- Witness for `historian_calibration_freeze`: the `N2O ZERO` trigger
freezes the output to the previous last-known-good. -/
theorem historian_calibration_freeze_witness :
    histTick 2 [some 7, some 8] [some true, some false, some false, some false]
        [] 0 (some [1, 2]) [] =
      ([some 7, some 8],
       ⟨padTruncate [some 7, some 8] 5, 0, "N2O ZERO", levelModeOf [], 1,
        plant_status 0⟩) :=
  historian_calibration_freeze 2 [some 7, some 8]
    [some true, some false, some false, some false] [] 0 [1, 2] [] "N2O ZERO" []
    (by decide)

/-- Counterexample to claim C4: a tick with the `N2O ZERO` trigger bit active whose
live read fails emits `ANALYZER OFFLINE` with `IsCalibration = 0` — not the
calibration's name with flag 1 as claimed: the OFFLINE branch overrides an
active calibration.  (The values are still frozen to last-known-good.) -/
theorem historian_offline_overrides_calibration :
    activeCals [some true, some false, some false, some false] = ["N2O ZERO"]
    ∧ (histTick 3 [some 1, some 2, some 3]
        [some true, some false, some false, some false] [] 0 none []).2.analyzerMode =
      "ANALYZER OFFLINE"
    ∧ (histTick 3 [some 1, some 2, some 3]
        [some true, some false, some false, some false] [] 0 none []).2.isCal = 0 :=
  ⟨by decide, by decide, by decide⟩

/-- No sample row's `ValueType` is the percent-error label. -/
theorem val_prefix_ne_pct (s : String) : "Val " ++ s ≠ "% Error" := by
  intro h
  have h2 : ("Val " ++ s).data = "% Error".data := congrArg String.data h
  rw [String.data_append] at h2
  have h4 : ("Val ".data ++ s.data).head? = "% Error".data.head? := by rw [h2]
  simp at h4

/-- Claim C10: the percent-error record of a level capture session is guarded
against division by zero: a reference read that fails everywhere makes the
actual value 0 (the fallback), and whenever the actual value is 0 every
emitted `% Error` row carries exactly 0.  The embedding is a total
function: nothing is raised. -/
theorem level_pct_error_zero_guard :
    (∀ (mode key : String) (holding : Nat → Option ℚ),
      (∀ reg, holding reg = none) → levelActualVal mode key holding = 0)
    ∧ (∀ (mode key : String) (reads : List (Option ℚ)) (holding : Nat → Option ℚ),
      levelActualVal mode key holding = 0 →
      ∀ r ∈ level_capture_worker mode key reads holding,
        r.valueType = "% Error" → r.value = 0) := by
  constructor
  · intro mode key holding h
    unfold levelActualVal
    by_cases hm : mode = "AN1_LEGACY"
    · rw [if_pos hm]
      cases AN1_ACTUAL_REF (upperCase key) <;> simp [h]
    · rw [if_neg hm]
      cases AN2_LEVEL_REF (upperCase key) <;> simp [h]
  · intro mode key reads holding hz r hr hty
    simp only [level_capture_worker] at hr
    cases hvals : reads.filterMap id with
    | nil =>
      rw [hvals] at hr
      simp only [List.mem_filterMap] at hr
      obtain ⟨p, _, hp⟩ := hr
      cases hx : p.2 with
      | none => rw [hx] at hp; cases hp
      | some x =>
        rw [hx] at hp
        cases hp
        exact absurd hty (val_prefix_ne_pct _)
    | cons v vs =>
      rw [hvals] at hr
      rw [List.mem_append] at hr
      rcases hr with hr | hr
      · simp only [List.mem_filterMap] at hr
        obtain ⟨p, _, hp⟩ := hr
        cases hx : p.2 with
        | none => rw [hx] at hp; cases hp
        | some x =>
          rw [hx] at hp
          cases hp
          exact absurd hty (val_prefix_ne_pct _)
      · rw [hz] at hr
        simp only [List.mem_cons, List.not_mem_nil, or_false] at hr
        rcases hr with h1 | h1 | h1 | h1
        · subst h1; simp at hty
        · subst h1; simp at hty
        · subst h1; simp at hty
        · subst h1; simp

/-- The percent-error row of a concrete session whose reference reads all
fail is in the emitted rows with value 0. -/
theorem level_pct_row_mem :
    (LevelRow.mk (titleCase "LOW" ++ " Level") "% Error" 0) ∈
      level_capture_worker "AN1_LEGACY" "LOW" [some 5] (fun _ => none) := by
  have hfm : List.filterMap id [some (5 : ℚ)] = [5] := rfl
  simp only [level_capture_worker, hfm]
  have hact : levelActualVal "AN1_LEGACY" "LOW" (fun _ => none) = 0 := by decide
  rw [hact]
  simp

/-- Witness for `level_pct_error_zero_guard`: a session whose reference
reads all fail emits a `% Error` row of exactly 0. -/
theorem level_pct_error_zero_guard_witness :
    (LevelRow.mk (titleCase "LOW" ++ " Level") "% Error" 0).value = 0 :=
  (level_pct_error_zero_guard).2 "AN1_LEGACY" "LOW" [some 5] (fun _ => none)
    ((level_pct_error_zero_guard).1 "AN1_LEGACY" "LOW" (fun _ => none) (fun _ => rfl))
    ⟨titleCase "LOW" ++ " Level", "% Error", 0⟩ level_pct_row_mem rfl

/-- Claim C3, amended: a CalWorker session whose first post-stabilization trigger
read is not true — the trigger cleared during the delay, or the read failed
— terminates with zero sample rows.  A level capture session, by contrast,
never consults the trigger: its rows are identical under any trigger
trajectory, so a falling edge during its delays does not abandon it. -/
theorem cal_session_early_clear :
    (∀ (rangeMap : String → Option RangeEntry) (calName : String)
        (tags : List String) (t : CalTick) (rest : List CalTick),
      truthy t.trig = false →
      calWorkerRows rangeMap calName tags (t :: rest) = [])
    ∧ (∀ (trig trig' : Nat → Option Bool) (mode key : String)
        (reads : List (Option ℚ)) (holding : Nat → Option ℚ),
      levelSessionRows trig mode key reads holding =
        levelSessionRows trig' mode key reads holding) := by
  constructor
  · intro rangeMap calName tags t rest h
    simp [calWorkerRows, h]
  · intro _ _ _ _ _ _
    rfl

/-- Witness for `cal_session_early_clear`: a session finding its trigger
already cleared records nothing. -/
theorem cal_session_early_clear_witness :
    calWorkerRows AN1_RANGE_MAP "N2O SPAN" ["N2O"]
      [⟨some false, fun _ => some 1, fun _ => none⟩] = [] :=
  (cal_session_early_clear).1 AN1_RANGE_MAP "N2O SPAN" ["N2O"]
    ⟨some false, fun _ => some 1, fun _ => none⟩ [] rfl

/-- Counterexample to claim C3: a level capture session whose trigger reads false at
every poll instant after the rising edge — i.e. the trigger cleared before
the 120 s stabilization delay elapsed — still records its samples: with
three successful reads it produces seven rows, not zero.  The claim "zero
samples recorded" is false for `level_capture_worker` sessions. -/
theorem level_session_records_after_falling_edge :
    ¬ (∀ (trig : Nat → Option Bool) (mode key : String)
        (reads : List (Option ℚ)) (holding : Nat → Option ℚ),
        (∀ n, trig n = some false) →
        levelSessionRows trig mode key reads holding = []) := by
  intro h
  have h5 := h (fun _ => some false) "AN1_LEGACY" "LOW" [some 5, some 5, some 5]
    (fun _ => none) (fun _ => rfl)
  exact absurd h5 (by decide)

/-- Preservation of the at-most-one-session invariant for `CalMonitor`. -/
theorem calSessionInv_step (s : CalTrigState) (e : CalEvent)
    (h : calSessionInv s) : calSessionInv (calStep s e) := by
  cases e with
  | poll st =>
    cases st with
    | none => simpa [calStep, calMonPoll] using h
    | some b =>
      rcases s with ⟨l, a, n⟩
      cases a <;> cases b <;> cases l <;>
        simp_all [calStep, calMonPoll, calSessionInv]
  | workerDone =>
    rcases s with ⟨l, a, n⟩
    cases a <;> simp_all [calStep, calSessionInv]

/-- The invariant holds along any event sequence. -/
theorem calSessionInv_fold (evs : List CalEvent) (s : CalTrigState)
    (h : calSessionInv s) : calSessionInv (evs.foldl calStep s) := by
  induction evs generalizing s with
  | nil => simpa using h
  | cons e rest ih => exact ih _ (calSessionInv_step s e h)

/-- Claim C1, amended: per calibration trigger address, `CalMonitor` keeps at
most one CalWorker session running: along any interleaving of monitor polls
and worker terminations from the initial state the session count stays
≤ 1, and a poll on a state whose stored worker is alive never spawns.
`LevelMonitor` has no such guard and can double-spawn. -/
theorem cal_monitor_single_session (evs : List CalEvent) (s : CalTrigState)
    (st : Option Bool) (halive : s.sessionAlive = true) :
    (evs.foldl calStep initCalTrig).sessions ≤ 1
    ∧ (calMonPoll s st).2 = false := by
  constructor
  · have h := calSessionInv_fold evs initCalTrig (by simp [calSessionInv, initCalTrig])
    rw [calSessionInv] at h
    rw [h]
    split <;> simp
  · cases st with
    | none => rfl
    | some b => simp [calMonPoll, halive]

/-- Witness for `cal_monitor_single_session`: the re-trigger trace that
double-spawns on `LevelMonitor` stays at one session on `CalMonitor`, and a
rising edge over a live worker does not spawn. -/
theorem cal_monitor_single_session_witness :
    (([CalEvent.poll (some true), CalEvent.poll (some false),
        CalEvent.poll (some true)].foldl calStep initCalTrig)).sessions ≤ 1
    ∧ (calMonPoll ⟨false, true, 1⟩ (some true)).2 = false :=
  cal_monitor_single_session
    [CalEvent.poll (some true), CalEvent.poll (some false),
     CalEvent.poll (some true)] ⟨false, true, 1⟩ (some true) rfl

/-- Counterexample to claim C1: `LevelMonitor.run` spawns a capture thread on every
rising edge with no aliveness check.  A level session lasts at least 140 s
while the monitor polls every 0.5 s, so with one session still running (no
`workerDone`) a cleared-and-raised trigger yields two concurrently active
sessions; the poll on a state with a running session still spawns. -/
theorem level_monitor_double_session :
    (([LvlEvent.poll (some true), LvlEvent.poll (some false),
        LvlEvent.poll (some true)].foldl lvlStep initLvlTrig)).sessions = 2
    ∧ (lvlMonPoll ⟨false, 1⟩ (some true)).2 = true :=
  ⟨by decide, by decide⟩

/-- Claim C9: a committed batch is exactly the first `min 300 |q|` queued items
(at most 300); a `pyodbc.Error` while a connection is available drops the
sink connection, sleeps the fixed 5 s back-off, commits nothing, and leaves
the failed batch's items off the queue (they are not re-queued); and no
iteration ever grows the queue.  Each iteration returns normally — the
consumer thread keeps looping. -/
theorem sql_writer_batching {α : Type} (conn connectOk : Bool) (q : List α)
    (outcome : SqlOutcome) :
    (∀ b, (sqlWriterIter conn connectOk q outcome).committed = some b →
      b = q.take 300 ∧ b.length ≤ 300
      ∧ (sqlWriterIter conn connectOk q outcome).queue = q.drop 300)
    ∧ ((conn = true ∨ connectOk = true) → q ≠ [] → outcome = .dbErr →
      sqlWriterIter conn connectOk q outcome = ⟨false, q.drop 300, none, 5⟩)
    ∧ ((sqlWriterIter conn connectOk q outcome).queue = q
       ∨ (sqlWriterIter conn connectOk q outcome).queue = q.drop 300) := by
  refine ⟨?_, ?_, ?_⟩
  · intro b hb
    cases conn <;> cases connectOk <;> rcases q with _ | ⟨x, q'⟩ <;>
      cases outcome <;> simp_all [sqlWriterIter] <;>
      simp [← hb, List.length_take]
  · intro hc hq ho
    subst ho
    cases conn <;> cases connectOk <;> rcases q with _ | ⟨x, q'⟩ <;>
      simp_all [sqlWriterIter]
  · cases conn <;> cases connectOk <;> rcases q with _ | ⟨x, q'⟩ <;>
      cases outcome <;> simp [sqlWriterIter]

/-- Witness for `sql_writer_batching`: a sink failure on a three-item queue
drops the connection, discards the batch, and backs off 5 s. -/
theorem sql_writer_batching_witness :
    sqlWriterIter true true [1, 2, 3] SqlOutcome.dbErr =
      (⟨false, ([1, 2, 3] : List Nat).drop 300, none, 5⟩ : WriterResult Nat) :=
  (sql_writer_batching true true [1, 2, 3] SqlOutcome.dbErr).2.1 (Or.inl rfl)
    (by decide) rfl

end SingleProg
